import Mathlib

/-!
Shallow embedding of `server.py` (the quote-proxy development server).

The request path, query string, symbol and upstream URL are modelled as
`List Char`, one character per byte of the request target, so that every
operation is a structurally recursive function the kernel can evaluate.
The outbound HTTP call and the static-file collaborator are modelled as
function parameters: the handler is a pure function of the request path
and of the collaborators' answers.
-/

/-- Python `str.split(sep)` for a one-character separator, with Python semantics:
splitting `"a?b?c"` at `'?'` gives `["a","b","c"]`, and splitting `""`
gives `[""]`.  Used for `self.path.split('?')` (line 32 of `server.py`)
and for the `'&'` splitting inside `urllib.parse.parse_qs`. -/
def splitOnChar (sep : Char) (s : List Char) : List (List Char) :=
  match s with
  | [] => [[]]
  | c :: rest =>
    let r := splitOnChar sep rest
    if c = sep then [] :: r
    else
      match r with
      | [] => [[c]]
      | x :: xs => (c :: x) :: xs

/-- Python `a.startswith(b)`: decides whether the second list begins with the
first list (the pattern comes first). -/
def hasPre : List Char → List Char → Bool
  | [], _ => true
  | _ :: _, [] => false
  | p :: ps, c :: cs => if p = c then hasPre ps cs else false

/-- Whether the pattern occurs as a contiguous segment anywhere in the list. -/
def hasOccur (pat : List Char) : List Char → Bool
  | [] => hasPre pat []
  | c :: rest => hasPre pat (c :: rest) || hasOccur pat rest

/-- The literal `'/api/quote/'` used both by the `do_GET` dispatch test
(line 22) and by the `str.replace` call that extracts the symbol (line 33). -/
def quotePat : List Char := "/api/quote/".data

/-- Fuel-indexed worker for `str.replace('/api/quote/', '')`: scans left to
right, and at each position either removes one occurrence of the pattern and
continues after it, or keeps the character.  One unit of fuel is spent per
step, and every step shortens the list, so fuel `s.length` is always enough. -/
def removeQuoteAux : Nat → List Char → List Char
  | 0, s => s
  | _ + 1, [] => []
  | fuel + 1, c :: rest =>
    if hasPre quotePat (c :: rest) then removeQuoteAux fuel ((c :: rest).drop quotePat.length)
    else c :: removeQuoteAux fuel rest

/-- Python's `s.replace('/api/quote/', '')` (line 33 of `server.py`): every
non-overlapping occurrence of the literal is removed, scanning left to right —
not only a leading one. -/
def removeQuote (s : List Char) : List Char := removeQuoteAux s.length s

/-- The value `path_parts[0]`: the part of the request target before the first `'?'`
(the whole target when it has no `'?'`). -/
def beforeQuery (path : String) : List Char :=
  (splitOnChar '?' path.data).headD []

/-- The value `path_parts[1]` guarded by `len(path_parts) > 1`: the part of the request
target between the first and second `'?'`, when a `'?'` exists at all. -/
def queryOf (path : String) : Option (List Char) :=
  (splitOnChar '?' path.data).get? 1

/-- Line 33: `symbol = path_parts[0].replace('/api/quote/', '')`. -/
def symbolChars (path : String) : List Char :=
  removeQuote (beforeQuery path)

/-- One hexadecimal digit, as accepted by `urllib.parse.unquote`. -/
def hexDigitVal (c : Char) : Option Nat :=
  if '0' ≤ c ∧ c ≤ '9' then some (c.toNat - 48)
  else if 'A' ≤ c ∧ c ≤ 'F' then some (c.toNat - 55)
  else if 'a' ≤ c ∧ c ≤ 'f' then some (c.toNat - 87)
  else none

/-- CPython `urllib.parse.unquote`, modelled at the byte level: a valid `%XX` escape
becomes the character with code `XX`, an invalid escape is kept literally and
scanning resumes right after the `'%'`.  (CPython re-decodes the produced
bytes as UTF-8 with `errors='replace'`; this model keeps each byte as one
character, which agrees with CPython on every comparison with an ASCII
string, and nothing in `server.py` looks at non-ASCII decodings.) -/
def unquoteChars : List Char → List Char
  | [] => []
  | '%' :: a :: b :: rest =>
    match hexDigitVal a, hexDigitVal b with
    | some ha, some hb => Char.ofNat (16 * ha + hb) :: unquoteChars rest
    | _, _ => '%' :: unquoteChars (a :: b :: rest)
  | c :: rest => c :: unquoteChars rest

/-- The `'+'`-to-space translation `parse_qsl` applies before unquoting. -/
def plusToSpace (s : List Char) : List Char :=
  s.map fun c => if c = '+' then ' ' else c

/-- Python `name_value.partition('=')` restricted to what `parse_qsl` needs:
`none` when the field has no `'='`, otherwise the parts before and after
the first `'='`. -/
def splitFirstEq : List Char → Option (List Char × List Char)
  | [] => none
  | c :: rest =>
    if c = '=' then some ([], rest)
    else
      match splitFirstEq rest with
      | none => none
      | some (n, v) => some (c :: n, v)

/-- One `name=value` field of a query string, under `parse_qsl`'s defaults
(`keep_blank_values=False`, `strict_parsing=False`): an empty field, a field
without `'='`, and a field with an empty value are all dropped; otherwise
name and value get `'+'`→space then percent-unquoting. -/
def parseField (nv : List Char) : Option (List Char × List Char) :=
  if nv = [] then none
  else
    match splitFirstEq nv with
    | none => none
    | some (n, v) =>
      if v = [] then none
      else some (unquoteChars (plusToSpace n), unquoteChars (plusToSpace v))

/-- CPython `urllib.parse.parse_qs(qs)` (line 38), as the ordered list of decoded
`(name, value)` pairs: CPython groups them into a dict of lists keyed by
name, preserving order, and `server.py` only ever reads the first `period`
value, which is the first pair named `period` in this list. -/
def parse_qs (q : List Char) : List (List Char × List Char) :=
  if q = [] then []
  else (splitOnChar '&' q).filterMap parseField

/-- Python `params.get(key, [dflt])[0]`: the value of the first pair with the given
name, or the default when no pair has it. -/
def getFirstParam (ps : List (List Char × List Char)) (key dflt : List Char) : List Char :=
  match ps with
  | [] => dflt
  | (k, v) :: rest => if k = key then v else getFirstParam rest key dflt

/-- Lines 36–41: `period = params.get('period', ['1d'])[0]` when the path has
a query component, `'1d'` when it has none. -/
def periodOf (path : String) : List Char :=
  match queryOf path with
  | some q => getFirstParam (parse_qs q) "period".data "1d".data
  | none => "1d".data

/-- Association-list lookup mirroring Python's `dict.get` on a literal dict. -/
def lookupTable : List (List Char × List Char) → List Char → Option (List Char)
  | [], _ => none
  | (k, v) :: rest, key => if k = key then some v else lookupTable rest key

/-- The `interval_map` literal of lines 44–51. -/
def interval_map : List (List Char × List Char) :=
  [("1d".data, "5m".data),
   ("5d".data, "15m".data),
   ("1mo".data, "1d".data),
   ("3mo".data, "1d".data),
   ("6mo".data, "1d".data),
   ("1y".data, "1wk".data)]

/-- Line 52: `interval = interval_map.get(period, '1d')`. -/
def intervalOf (period : List Char) : List Char :=
  match lookupTable interval_map period with
  | some v => v
  | none => "1d".data

/-- The f-string of line 55: the fixed upstream template instantiated with
symbol, interval and period. -/
def upstreamUrl (symbol interval period : List Char) : List Char :=
  "https://query1.finance.yahoo.com/v8/finance/chart/".data ++ symbol
    ++ "?interval=".data ++ interval ++ "&range=".data ++ period

/-- The URL the handler requests for a given inbound path: the template
instantiated with the extracted symbol, the derived interval and the period. -/
def requestedUrl (path : String) : List Char :=
  upstreamUrl (symbolChars path) (intervalOf (periodOf path)) (periodOf path)

/-- The fixed browser-like `User-Agent` value of lines 61–63. -/
def userAgent : String :=
  "Mozilla/5.0 (Windows NT 10.0; Win64; x64) AppleWebKit/537.36 (KHTML, like Gecko) Chrome/91.0.4472.124 Safari/537.36"

/-- The outbound request built on line 65: a URL plus the spoofed header. -/
structure OutboundRequest where
  url : List Char
  headers : List (String × String)
deriving Repr, DecidableEq

/-- Outcome of `urllib.request.urlopen(...)` + `response.read()` as the
handler observes it: a byte payload on success, or one of the three
exception classes the `except` clauses of lines 76–81 distinguish
(`HTTPError` with a status code and reason, `URLError` with a reason,
any other `Exception` with its text). -/
inductive UpstreamResult where
  | success (data : List Nat)
  | httpError (code : Nat) (reason : String)
  | urlError (reason : String)
  | failure (message : String)
deriving Repr, DecidableEq

/-- Response bodies the handler can produce: nothing written, the raw
upstream bytes, or the error page `send_error` renders around a message. -/
inductive Body where
  | empty
  | bytes (data : List Nat)
  | errorPage (message : String)
deriving Repr, DecidableEq

/-- One HTTP response: status code, the headers explicitly set by the
handler (in the order they are sent), and the body. -/
structure Response where
  status : Nat
  headers : List (String × String)
  body : Body
deriving Repr, DecidableEq

/-- The three headers `end_headers` injects (lines 9–13). -/
def corsHeaders : List (String × String) :=
  [("Access-Control-Allow-Origin", "*"),
   ("Access-Control-Allow-Methods", "GET, POST, OPTIONS"),
   ("Access-Control-Allow-Headers", "Content-Type")]

/-- The overridden `end_headers` (lines 9–14): every header flush appends
the three CORS headers after whatever headers were already set. -/
def end_headers (pending : List (String × String)) : List (String × String) :=
  pending ++ corsHeaders

/-- Stdlib `BaseHTTPRequestHandler.send_error(code, message)` as the handler uses
it: the given status, headers flushed through the overridden `end_headers`,
and an error-page body carrying the message.  (The real page is HTML with
the message interpolated; only the message is modelled.) -/
def send_error (code : Nat) (message : String) : Response :=
  { status := code
    headers := end_headers [("Content-Type", "text/html;charset=utf-8"), ("Connection", "close")]
    body := .errorPage message }

/-- Method `handle_api_request` (lines 28–81): extract the symbol and period from
the path, derive the interval, build the upstream URL, perform the single
outbound call through `fetch`, and translate its outcome.  On success:
status 200, `Content-Type: application/json`, the raw bytes as body.  On
`HTTPError`: the upstream code with `API Error: <reason>`.  On `URLError`:
500 with `Connection Error: <reason>`.  On any other exception: 500 with
`Server Error: <text>`. -/
def handle_api_request (fetch : OutboundRequest → UpstreamResult) (path : String) : Response :=
  let symbol := symbolChars path
  let period := periodOf path
  let interval := intervalOf period
  let url := upstreamUrl symbol interval period
  let req : OutboundRequest := { url := url, headers := [("User-Agent", userAgent)] }
  match fetch req with
  | .success data =>
    { status := 200
      headers := end_headers [("Content-Type", "application/json")]
      body := .bytes data }
  | .httpError code reason => send_error code ("API Error: " ++ reason)
  | .urlError reason => send_error 500 ("Connection Error: " ++ reason)
  | .failure msg => send_error 500 ("Server Error: " ++ msg)

/-- How the handler maps one upstream outcome to a response — the match of
lines 67–81 abstracted over where the outcome came from. -/
def respondUpstream : UpstreamResult → Response
  | .success data =>
    { status := 200
      headers := end_headers [("Content-Type", "application/json")]
      body := .bytes data }
  | .httpError code reason => send_error code ("API Error: " ++ reason)
  | .urlError reason => send_error 500 ("Connection Error: " ++ reason)
  | .failure msg => send_error 500 ("Server Error: " ++ msg)

/-- What the static-file collaborator (`SimpleHTTPRequestHandler.do_GET`)
decides on its own: a status, the headers it sets, and a body. -/
structure StaticResult where
  status : Nat
  extraHeaders : List (String × String)
  body : Body
deriving Repr, DecidableEq

/-- The static-file branch of `do_GET` (line 26).  The collaborator's
choices are a parameter; its headers are flushed through the overridden
`end_headers`, as every header flush of the handler class is. -/
def serveStatic (staticH : String → StaticResult) (path : String) : Response :=
  let r := staticH path
  { status := r.status, headers := end_headers r.extraHeaders, body := r.body }

/-- Method `do_GET` (lines 20–26): paths starting with the literal `'/api/quote/'`
go to the proxy, every other path to static-file serving. -/
def do_GET (staticH : String → StaticResult) (fetch : OutboundRequest → UpstreamResult)
    (path : String) : Response :=
  if hasPre quotePat path.data then handle_api_request fetch path
  else serveStatic staticH path

/-- Method `do_OPTIONS` (lines 16–18): status 200, headers flushed, nothing
written — for any request path. -/
def do_OPTIONS (_path : String) : Response :=
  { status := 200, headers := end_headers [], body := .empty }

/-- A response carries the three CORS headers of `end_headers`. -/
def corsOk (r : Response) : Prop :=
  ("Access-Control-Allow-Origin", "*") ∈ r.headers ∧
  ("Access-Control-Allow-Methods", "GET, POST, OPTIONS") ∈ r.headers ∧
  ("Access-Control-Allow-Headers", "Content-Type") ∈ r.headers

theorem corsOk_end_headers (st : Nat) (b : Body) (hs : List (String × String)) :
    corsOk { status := st, headers := end_headers hs, body := b } := by
  simp [corsOk, end_headers, corsHeaders]

theorem removeQuoteAux_nil (fuel : Nat) : removeQuoteAux fuel [] = [] := by
  cases fuel <;> rfl

theorem quotePat_length : quotePat.length = 11 := rfl

theorem removeQuoteAux_fuel :
    ∀ (fuel fuel' : Nat) (s : List Char), s.length ≤ fuel → s.length ≤ fuel' →
      removeQuoteAux fuel s = removeQuoteAux fuel' s := by
  intro fuel
  induction fuel with
  | zero =>
    intro fuel' s hs _
    have hnil : s = [] := List.length_eq_zero.mp (Nat.le_zero.mp hs)
    subst hnil
    rw [removeQuoteAux_nil, removeQuoteAux_nil]
  | succ f ih =>
    intro fuel' s hs hs'
    cases s with
    | nil => rw [removeQuoteAux_nil, removeQuoteAux_nil]
    | cons c rest =>
      cases fuel' with
      | zero => simp at hs'
      | succ f' =>
        simp only [List.length_cons] at hs hs'
        simp only [removeQuoteAux]
        by_cases h : hasPre quotePat (c :: rest) = true
        · rw [if_pos h, if_pos h]
          apply ih
          · simp only [List.length_drop, List.length_cons, quotePat_length]
            omega
          · simp only [List.length_drop, List.length_cons, quotePat_length]
            omega
        · rw [if_neg h, if_neg h]
          rw [ih f' rest (by omega) (by omega)]

theorem hasPre_append (p t : List Char) : hasPre p (p ++ t) = true := by
  induction p with
  | nil => rfl
  | cons c cs ih => simp [hasPre, ih]

theorem removeQuoteAux_pos (fuel : Nat) (c : Char) (rest : List Char)
    (h : hasPre quotePat (c :: rest) = true) :
    removeQuoteAux (fuel + 1) (c :: rest)
      = removeQuoteAux fuel ((c :: rest).drop quotePat.length) := by
  simp only [removeQuoteAux]
  rw [if_pos h]

theorem removeQuote_append (t : List Char) :
    removeQuote (quotePat ++ t) = removeQuote t := by
  have hlen : (quotePat ++ t).length = 10 + t.length + 1 := by
    rw [List.length_append, quotePat_length]
    omega
  show removeQuoteAux (quotePat ++ t).length (quotePat ++ t) = removeQuote t
  rw [hlen]
  have hcons : quotePat ++ t = '/' :: ("api/quote/".data ++ t) := rfl
  rw [hcons]
  rw [removeQuoteAux_pos (10 + t.length) '/' ("api/quote/".data ++ t)
        (hasPre_append quotePat t)]
  have hdrop : ('/' :: ("api/quote/".data ++ t)).drop quotePat.length = t := by
    show (quotePat ++ t).drop quotePat.length = t
    exact List.drop_left quotePat t
  rw [hdrop]
  exact removeQuoteAux_fuel _ _ t (by omega) (le_refl _)

theorem removeQuoteAux_no_occur :
    ∀ (fuel : Nat) (s : List Char), s.length ≤ fuel →
      hasOccur quotePat s = false → removeQuoteAux fuel s = s := by
  intro fuel
  induction fuel with
  | zero => intro s _ _; rfl
  | succ f ih =>
    intro s hs hno
    cases s with
    | nil => exact removeQuoteAux_nil _
    | cons c rest =>
      simp only [hasOccur, Bool.or_eq_false_iff] at hno
      simp only [List.length_cons] at hs
      simp only [removeQuoteAux]
      rw [if_neg (by simp [hno.1])]
      rw [ih rest (by omega) hno.2]

theorem removeQuote_no_occur (s : List Char) (h : hasOccur quotePat s = false) :
    removeQuote s = s :=
  removeQuoteAux_no_occur s.length s (le_refl _) h

theorem getFirstParam_default (ps : List (List Char × List Char)) (key dflt : List Char)
    (h : ∀ kv ∈ ps, kv.1 ≠ key) : getFirstParam ps key dflt = dflt := by
  induction ps with
  | nil => rfl
  | cons kv rest ih =>
    obtain ⟨k, v⟩ := kv
    simp only [getFirstParam]
    rw [if_neg (h (k, v) (List.mem_cons_self _ _))]
    exact ih fun kv hkv => h kv (List.mem_cons_of_mem _ hkv)

example : splitOnChar '?' "/a?b?c".data = ["/a".data, "b".data, "c".data] := rfl
example : symbolChars "/api/quote/AAPL?period=5d" = "AAPL".data := rfl
example : symbolChars "/api/quote/A/api/quote/B" = "AB".data := rfl
example : periodOf "/api/quote/AAPL?period=5d" = "5d".data := rfl
example : periodOf "/api/quote/AAPL" = "1d".data := rfl
example : periodOf "/api/quote/AAPL?period=" = "1d".data := rfl
example : intervalOf "5d".data = "15m".data := rfl
example : intervalOf "2y".data = "1d".data := rfl
example : requestedUrl "/api/quote/AAPL?period=5d"
    = "https://query1.finance.yahoo.com/v8/finance/chart/AAPL?interval=15m&range=5d".data := rfl
example : parse_qs "a=1&period=2d&period=3d".data
    = [("a".data, "1".data), ("period".data, "2d".data), ("period".data, "3d".data)] := rfl
example : unquoteChars "%70eriod%4%".data = "period%4%".data := rfl

theorem corsOk_handle (fetch : OutboundRequest → UpstreamResult) (path : String) :
    corsOk (handle_api_request fetch path) := by
  simp only [handle_api_request]
  cases fetch { url := upstreamUrl (symbolChars path) (intervalOf (periodOf path)) (periodOf path),
                headers := [("User-Agent", userAgent)] } with
  | success data => exact corsOk_end_headers _ _ _
  | httpError code reason => exact corsOk_end_headers _ _ _
  | urlError reason => exact corsOk_end_headers _ _ _
  | failure msg => exact corsOk_end_headers _ _ _

/-- C1: for every quote request whose outbound call succeeds, the handler
responds with status 200, sets the content-type header to
`application/json`, and writes exactly the bytes read from the upstream
response as the body, unmodified. -/
theorem success_relays_upstream_bytes (fetch : OutboundRequest → UpstreamResult)
    (path : String) (data : List Nat)
    (h : fetch { url := requestedUrl path, headers := [("User-Agent", userAgent)] }
          = .success data) :
    (handle_api_request fetch path).status = 200 ∧
    ("Content-Type", "application/json") ∈ (handle_api_request fetch path).headers ∧
    (handle_api_request fetch path).body = .bytes data := by
  simp only [requestedUrl] at h
  simp [handle_api_request, h, end_headers, corsHeaders]

/-- Witness for C1: a concrete successful call relays the two bytes `{}`. -/
theorem success_relays_upstream_bytes_w :
    (handle_api_request (fun _ => .success [123, 125]) "/api/quote/AAPL").status = 200 ∧
    ("Content-Type", "application/json")
        ∈ (handle_api_request (fun _ => .success [123, 125]) "/api/quote/AAPL").headers ∧
    (handle_api_request (fun _ => .success [123, 125]) "/api/quote/AAPL").body
        = .bytes [123, 125] :=
  success_relays_upstream_bytes (fun _ => .success [123, 125]) "/api/quote/AAPL"
    [123, 125] rfl

/-- C2: the period-to-interval derivation is exactly the fixed table —
`1d→5m`, `5d→15m`, `1mo→1d`, `3mo→1d`, `6mo→1d`, `1y→1wk` — and every
period string not in the table derives the interval `1d`. -/
theorem interval_table_exact :
    intervalOf "1d".data = "5m".data ∧
    intervalOf "5d".data = "15m".data ∧
    intervalOf "1mo".data = "1d".data ∧
    intervalOf "3mo".data = "1d".data ∧
    intervalOf "6mo".data = "1d".data ∧
    intervalOf "1y".data = "1wk".data ∧
    ∀ p : List Char, p ≠ "1d".data → p ≠ "5d".data → p ≠ "1mo".data →
      p ≠ "3mo".data → p ≠ "6mo".data → p ≠ "1y".data → intervalOf p = "1d".data := by
  refine ⟨rfl, rfl, rfl, rfl, rfl, rfl, ?_⟩
  intro p h1 h2 h3 h4 h5 h6
  simp only [intervalOf, interval_map, lookupTable]
  rw [if_neg fun hh => h1 hh.symm, if_neg fun hh => h2 hh.symm,
      if_neg fun hh => h3 hh.symm, if_neg fun hh => h4 hh.symm,
      if_neg fun hh => h5 hh.symm, if_neg fun hh => h6 hh.symm]

/-- Witness for C2: the unrecognized period `2y` derives interval `1d`. -/
theorem interval_table_exact_w : intervalOf "2y".data = "1d".data :=
  interval_table_exact.2.2.2.2.2.2 "2y".data (by decide) (by decide) (by decide)
    (by decide) (by decide) (by decide)

/-- C3 counterexample: on the proxied path `/api/quote/A/api/quote/B` the
code removes every occurrence of the literal (`str.replace`), producing
`AB`, while stripping only the leading occurrence would produce
`A/api/quote/B` — so the symbol is not always the pre-`?` portion with the
literal stripped as a prefix. -/
theorem symbol_strip_cex :
    hasPre quotePat "/api/quote/A/api/quote/B".data = true ∧
    symbolChars "/api/quote/A/api/quote/B" = "AB".data ∧
    (beforeQuery "/api/quote/A/api/quote/B").drop quotePat.length = "A/api/quote/B".data ∧
    "AB".data ≠ "A/api/quote/B".data :=
  ⟨rfl, rfl, rfl, by decide⟩

/-- C3 amended: the extracted symbol is the pre-`?` portion of the path
with every occurrence of the literal `/api/quote/` removed; whenever the
portion after the leading occurrence contains no further occurrence of the
literal, this coincides with stripping the leading occurrence. -/
theorem symbol_removes_all_occurrences (path : String) (t : List Char)
    (h1 : beforeQuery path = quotePat ++ t) (h2 : hasOccur quotePat t = false) :
    symbolChars path = t := by
  unfold symbolChars
  rw [h1, removeQuote_append, removeQuote_no_occur t h2]

/-- Witness for the amended C3: for `/api/quote/AAPL?period=5d` the symbol
is exactly `AAPL`. -/
theorem symbol_removes_all_occurrences_w :
    symbolChars "/api/quote/AAPL?period=5d" = "AAPL".data :=
  symbol_removes_all_occurrences "/api/quote/AAPL?period=5d" "AAPL".data rfl rfl

/-- C4: the handler's response is determined by the upstream's answer at
exactly the templated URL
`https://query1.finance.yahoo.com/v8/finance/chart/<symbol>?interval=<interval>&range=<period>`
instantiated with the extracted symbol, derived interval and period; in
particular for `/api/quote/AAPL?period=5d` the URL contains
`interval=15m&range=5d` and the symbol `AAPL`. -/
theorem upstream_url_from_template :
    (∀ (fetch : OutboundRequest → UpstreamResult) (path : String),
      handle_api_request fetch path
        = respondUpstream
            (fetch { url := requestedUrl path, headers := [("User-Agent", userAgent)] })) ∧
    requestedUrl "/api/quote/AAPL?period=5d"
      = "https://query1.finance.yahoo.com/v8/finance/chart/AAPL?interval=15m&range=5d".data ∧
    (∃ pre post, pre ++ "interval=15m&range=5d".data ++ post
        = requestedUrl "/api/quote/AAPL?period=5d") ∧
    (∃ pre post, pre ++ "AAPL".data ++ post = requestedUrl "/api/quote/AAPL?period=5d") := by
  refine ⟨?_, rfl, ?_, ?_⟩
  · intro fetch path
    simp only [requestedUrl]
    cases hh : fetch { url := upstreamUrl (symbolChars path) (intervalOf (periodOf path)) (periodOf path),
                       headers := [("User-Agent", userAgent)] } <;>
      simp [handle_api_request, respondUpstream, hh]
  · exact ⟨"https://query1.finance.yahoo.com/v8/finance/chart/AAPL?".data, [], rfl⟩
  · exact ⟨"https://query1.finance.yahoo.com/v8/finance/chart/".data,
           "?interval=15m&range=5d".data, rfl⟩

/-- C5: when the path has no query component, or its query component has no
`period` key, the period used is `1d` and the derived interval is `5m`. -/
theorem period_defaults_to_1d (path : String)
    (h : ∀ q, queryOf path = some q → ∀ kv ∈ parse_qs q, kv.1 ≠ "period".data) :
    periodOf path = "1d".data ∧ intervalOf (periodOf path) = "5m".data := by
  have hp : periodOf path = "1d".data := by
    cases hq : queryOf path with
    | none => simp [periodOf, hq]
    | some q =>
      simp only [periodOf, hq]
      exact getFirstParam_default _ _ _ (h q hq)
  refine ⟨hp, ?_⟩
  rw [hp]
  rfl

/-- Witness for C5: `/api/quote/AAPL` has no query component, so the period
is `1d` and the interval `5m`. -/
theorem period_defaults_to_1d_w :
    periodOf "/api/quote/AAPL" = "1d".data ∧
    intervalOf (periodOf "/api/quote/AAPL") = "5m".data :=
  period_defaults_to_1d "/api/quote/AAPL"
    (fun _q hq =>
      Option.noConfusion ((show queryOf "/api/quote/AAPL" = none from rfl).symm.trans hq))

/-- C6: when the upstream call fails with an HTTP error status, the handler
responds with that same status code and a message embedding the upstream's
reason phrase. -/
theorem upstream_http_error_propagates (fetch : OutboundRequest → UpstreamResult)
    (path : String) (code : Nat) (reason : String)
    (h : fetch { url := requestedUrl path, headers := [("User-Agent", userAgent)] }
          = .httpError code reason) :
    (handle_api_request fetch path).status = code ∧
    ∃ pre post,
      (handle_api_request fetch path).body = .errorPage (pre ++ reason ++ post) := by
  simp only [requestedUrl] at h
  refine ⟨?_, "API Error: ", "", ?_⟩ <;>
    simp [handle_api_request, h, send_error, String.append_empty]

/-- Witness for C6: a simulated upstream 404 yields a 404 from the proxy,
with the reason phrase embedded in the message. -/
theorem upstream_http_error_propagates_w :
    (handle_api_request (fun _ => .httpError 404 "Not Found") "/api/quote/AAPL").status = 404 ∧
    ∃ pre post,
      (handle_api_request (fun _ => .httpError 404 "Not Found") "/api/quote/AAPL").body
        = .errorPage (pre ++ "Not Found" ++ post) :=
  upstream_http_error_propagates (fun _ => .httpError 404 "Not Found") "/api/quote/AAPL"
    404 "Not Found" rfl

/-- C7: a network-level failure yields status 500 with the connection error
embedded in the message; any other unexpected failure yields status 500
with the exception text embedded; and the response depends only on the
single outbound call at the requested URL — no retry. -/
theorem transport_errors_map_to_500 (fetch : OutboundRequest → UpstreamResult)
    (path : String) :
    (∀ reason,
      fetch { url := requestedUrl path, headers := [("User-Agent", userAgent)] }
          = .urlError reason →
      (handle_api_request fetch path).status = 500 ∧
      ∃ pre post,
        (handle_api_request fetch path).body = .errorPage (pre ++ reason ++ post)) ∧
    (∀ msg,
      fetch { url := requestedUrl path, headers := [("User-Agent", userAgent)] }
          = .failure msg →
      (handle_api_request fetch path).status = 500 ∧
      ∃ pre post,
        (handle_api_request fetch path).body = .errorPage (pre ++ msg ++ post)) ∧
    (∀ fetch' : OutboundRequest → UpstreamResult,
      fetch' { url := requestedUrl path, headers := [("User-Agent", userAgent)] }
          = fetch { url := requestedUrl path, headers := [("User-Agent", userAgent)] } →
      handle_api_request fetch' path = handle_api_request fetch path) := by
  refine ⟨?_, ?_, ?_⟩
  · intro reason h
    simp only [requestedUrl] at h
    refine ⟨?_, "Connection Error: ", "", ?_⟩ <;>
      simp [handle_api_request, h, send_error, String.append_empty]
  · intro msg h
    simp only [requestedUrl] at h
    refine ⟨?_, "Server Error: ", "", ?_⟩ <;>
      simp [handle_api_request, h, send_error, String.append_empty]
  · intro fetch' h
    simp only [requestedUrl] at h
    simp only [handle_api_request, h]

/-- Witness for C7: a simulated timeout maps to a 500 response whose
message embeds the connection error. -/
theorem transport_errors_map_to_500_w :
    (handle_api_request (fun _ => .urlError "timed out") "/api/quote/AAPL").status = 500 ∧
    ∃ pre post,
      (handle_api_request (fun _ => .urlError "timed out") "/api/quote/AAPL").body
        = .errorPage (pre ++ "timed out" ++ post) :=
  (transport_errors_map_to_500 (fun _ => .urlError "timed out") "/api/quote/AAPL").1
    "timed out" rfl

/-- C8: every response the server produces — proxied success or error,
static-file response, and OPTIONS preflight alike — carries the three CORS
headers. -/
theorem cors_headers_on_every_response (staticH : String → StaticResult)
    (fetch : OutboundRequest → UpstreamResult) (path optionsPath : String) :
    corsOk (do_GET staticH fetch path) ∧ corsOk (do_OPTIONS optionsPath) := by
  constructor
  · unfold do_GET
    split
    · exact corsOk_handle fetch path
    · exact corsOk_end_headers (staticH path).status (staticH path).body
        (staticH path).extraHeaders
  · exact corsOk_end_headers 200 Body.empty []

/-- C9: an OPTIONS request to any path yields status 200 with an empty
body. -/
theorem options_returns_200_empty (path : String) :
    (do_OPTIONS path).status = 200 ∧ (do_OPTIONS path).body = .empty :=
  ⟨rfl, rfl⟩

/-- C10: a GET is proxied exactly when its path starts with the literal
`/api/quote/` (slash included); every other GET path — in particular the
exact path `/api/quote` — is delegated to static-file serving. -/
theorem get_dispatch_by_quote_pre (staticH : String → StaticResult)
    (fetch : OutboundRequest → UpstreamResult) (path : String) :
    (hasPre quotePat path.data = true →
      do_GET staticH fetch path = handle_api_request fetch path) ∧
    (hasPre quotePat path.data = false →
      do_GET staticH fetch path = serveStatic staticH path) ∧
    hasPre quotePat "/api/quote".data = false := by
  refine ⟨?_, ?_, rfl⟩
  · intro h
    simp [do_GET, h]
  · intro h
    simp [do_GET, h]

/-- Witness for C10: the exact path `/api/quote` (no trailing slash) is
served statically, not proxied. -/
theorem get_dispatch_by_quote_pre_w :
    do_GET (fun _ => ⟨200, [], Body.empty⟩) (fun _ => UpstreamResult.success []) "/api/quote"
      = serveStatic (fun _ => ⟨200, [], Body.empty⟩) "/api/quote" :=
  (get_dispatch_by_quote_pre (fun _ => ⟨200, [], Body.empty⟩)
      (fun _ => UpstreamResult.success []) "/api/quote").2.1 rfl
